import Mathlib

/-!
Verification of `src/core/default_allocator.rs` (the default matrix storage
allocator of a linear-algebra library).  The allocator offers, for each of
three dimension-kind combinations, two construction operations:
`allocate_uninitialized` and `allocate_from_iterator`.  We embed the three
policy implementations over explicit lists; machine memory with no valid
value is modelled by `Option`-valued slots (`none` = reserved, not written),
and the fatal `assert!` failure path is modelled by an `Option`-valued
result (`none` = process-terminating assertion fired).
-/

/-- Dimension descriptor for one matrix axis.  `Static` models a `DimName`
type whose element count is a compile-time constant (we carry that constant
as data); `Dynamic` models the run-time-valued `Dynamic` descriptor.
Modelled from the spec: the dimension capability (`core::dimension`) is not
under `src/`; the spec says it only exposes a non-negative element count,
fixed once the descriptor is constructed. -/
inductive Dim : Type
  | Static : Nat → Dim
  | Dynamic : Nat → Dim
deriving DecidableEq, Repr

/-- Runtime element count of a dimension descriptor (`value()` in the source,
`count()` in the spec). -/
def Dim.value : Dim → Nat
  | .Static n => n
  | .Dynamic n => n

/-- Element storage backing a matrix.  Modelled from the spec: the two buffer
collaborators (`core::matrix_array::MatrixArray`, `core::matrix_vec::MatrixVec`)
are not under `src/`.  `MatrixArray` is the inline fixed-capacity container
(dimensions recoverable from the type, not stored); `MatrixVec` is the
heap-backed container carrying both dimension descriptors next to its data.
A slot holding `none` is reserved memory with no valid value. -/
inductive Buffer (N : Type) : Type
  | MatrixArray : List (Option N) → Buffer N
  | MatrixVec : Dim → Dim → List (Option N) → Buffer N
deriving DecidableEq, Repr

/-- The addressable element slots of a buffer, in storage (traversal) order. -/
def Buffer.slots {N : Type} : Buffer N → List (Option N)
  | .MatrixArray data => data
  | .MatrixVec _ _ data => data

/-- Number of addressable element slots of a buffer, obtained by walking the
slots and counting them. -/
def Buffer.slotCount {N : Type} (b : Buffer N) : Nat :=
  b.slots.length

/-- Whether the buffer is the inline fixed-capacity variant. -/
def Buffer.isInline {N : Type} : Buffer N → Bool
  | .MatrixArray _ => true
  | .MatrixVec _ _ _ => false

/-- The dimension descriptors stored inside the buffer at run time: present
only for the heap-backed variant. -/
def Buffer.storedDims {N : Type} : Buffer N → Option (Dim × Dim)
  | .MatrixArray _ => none
  | .MatrixVec r c _ => some (r, c)

/-- The runtime element counts of the stored dimension descriptors, for the
heap-backed variant. -/
def Buffer.storedCounts {N : Type} : Buffer N → Option (Nat × Nat)
  | .MatrixArray _ => none
  | .MatrixVec r c _ => some (r.value, c.value)

/-- Outcome of `allocate_from_iterator`: how many elements were consumed from
the input sequence, and the constructed buffer — `none` when the fatal
count-mismatch `assert!` fires instead of returning. -/
structure IterResult (N : Type) : Type where
  consumed : Nat
  buffer : Option (Buffer N)
deriving DecidableEq, Repr

/-- Mirrors the Static x Static loop
`for (res, e) in res.iter_mut().zip(iter.into_iter()) { *res = e; count += 1 }`:
slots and input are walked in lockstep, one element written per slot, until
either runs out; returns the updated slots and the write count (which is also
the number of elements consumed from the input). -/
def zipWrite {N : Type} : List (Option N) → List N → List (Option N) × Nat
  | slots, [] => (slots, 0)
  | [], _ :: _ => ([], 0)
  | _ :: slots, e :: rest =>
      let r := zipWrite slots rest
      (some e :: r.1, r.2 + 1)

/-- Static x Static `allocate_uninitialized`: `mem::uninitialized()` — the
the `nrows * ncols` slots of the inline buffer exist but hold no valid value. -/
def StaticStatic.allocate_uninit {N : Type} (nrows ncols : Nat) : Buffer N :=
  Buffer.MatrixArray (List.replicate (nrows * ncols) none)

/-- Static x Static `allocate_from_iterator`: allocate uninitialized, write
slots from the input in lockstep while counting, then
`assert!(count == nrows.value() * ncols.value())`. -/
def StaticStatic.allocate_from_iterator {N : Type} (nrows ncols : Nat)
    (iter : List N) : IterResult N :=
  let res : Buffer N := StaticStatic.allocate_uninit nrows ncols
  let written := zipWrite res.slots iter
  if written.2 = nrows * ncols then
    ⟨written.2, some (Buffer.MatrixArray written.1)⟩
  else
    ⟨written.2, none⟩

/-- Dynamic x Any `allocate_uninitialized`: a fresh heap vector with exactly
`length = nrows.value() * ncols.value()` reserved, uninitialized slots
(`reserve_exact` + `set_len`), wrapped with both dimension descriptors. -/
def DynamicAny.allocate_uninit {N : Type} (nrows : Nat) (ncols : Dim) : Buffer N :=
  Buffer.MatrixVec (Dim.Dynamic nrows) ncols
    (List.replicate (nrows * ncols.value) none)

/-- Dynamic x Any `allocate_from_iterator`: collect the entire input into a
heap vector, then `assert!(res.len() == nrows.value() * ncols.value())`,
then wrap it as `MatrixVec::new(nrows, ncols, res)`. -/
def DynamicAny.allocate_from_iterator {N : Type} (nrows : Nat) (ncols : Dim)
    (iter : List N) : IterResult N :=
  let res : List N := iter
  if res.length = nrows * ncols.value then
    ⟨iter.length, some (Buffer.MatrixVec (Dim.Dynamic nrows) ncols (res.map some))⟩
  else
    ⟨iter.length, none⟩

/-- Static x Dynamic `allocate_uninitialized`: same algorithm as the
Dynamic x Any variant, with the row descriptor compile-time-valued. -/
def AnyDynamic.allocate_uninit {N : Type} (nrows ncols : Nat) : Buffer N :=
  Buffer.MatrixVec (Dim.Static nrows) (Dim.Dynamic ncols)
    (List.replicate (nrows * ncols) none)

/-- Static x Dynamic `allocate_from_iterator`: collect the entire input, then
`assert!(res.len() == nrows.value() * ncols.value())`, then wrap. -/
def AnyDynamic.allocate_from_iterator {N : Type} (nrows ncols : Nat)
    (iter : List N) : IterResult N :=
  let res : List N := iter
  if res.length = nrows * ncols then
    ⟨iter.length, some (Buffer.MatrixVec (Dim.Static nrows) (Dim.Dynamic ncols) (res.map some))⟩
  else
    ⟨iter.length, none⟩

/-! Helper lemmas about the lockstep write loop. -/

theorem zipWrite_snd {N : Type} : ∀ (slots : List (Option N)) (iter : List N),
    (zipWrite slots iter).2 = min slots.length iter.length
  | slots, [] => by simp [zipWrite]
  | [], _ :: _ => by simp [zipWrite]
  | _ :: slots, e :: rest => by
      simp [zipWrite, zipWrite_snd slots rest]
      omega

theorem zipWrite_fst_length {N : Type} : ∀ (slots : List (Option N)) (iter : List N),
    (zipWrite slots iter).1.length = slots.length
  | _, [] => by simp [zipWrite]
  | [], _ :: _ => by simp [zipWrite]
  | _ :: slots, e :: rest => by
      simp [zipWrite, zipWrite_fst_length slots rest]

theorem zipWrite_fst_of_le {N : Type} : ∀ (slots : List (Option N)) (iter : List N),
    slots.length ≤ iter.length →
    (zipWrite slots iter).1 = (iter.take slots.length).map some
  | slots, [], h => by
      simp at h
      simp [zipWrite, h]
  | [], _ :: _, _ => by simp [zipWrite]
  | _ :: slots, e :: rest, h => by
      simp at h
      simp [zipWrite, zipWrite_fst_of_le slots rest h]

theorem Dim.value_static_eq (n : Nat) : (Dim.Static n).value = n := rfl

theorem Dim.value_dynamic_eq (n : Nat) : (Dim.Dynamic n).value = n := rfl

/-! Characterizations of the three `allocate_from_iterator` implementations. -/

theorem staticStatic_from_iterator_eq {N : Type} (r c : Nat) (s : List N) :
    StaticStatic.allocate_from_iterator r c s =
      if r * c ≤ s.length then
        ⟨r * c, some (Buffer.MatrixArray ((s.take (r * c)).map some))⟩
      else ⟨s.length, none⟩ := by
  simp only [StaticStatic.allocate_from_iterator, StaticStatic.allocate_uninit, Buffer.slots,
    zipWrite_snd, List.length_replicate]
  rcases le_or_lt (r * c) s.length with h | h
  · have hmin : min (r * c) s.length = r * c := by omega
    have hf := zipWrite_fst_of_le (List.replicate (r * c) (none : Option N)) s
      (by simpa using h)
    simp only [List.length_replicate] at hf
    simp [hmin, hf, h]
  · have hmin : min (r * c) s.length = s.length := by omega
    have hne : ¬ (s.length = r * c) := by omega
    have hnle : ¬ (r * c ≤ s.length) := by omega
    simp [hmin, hne, hnle]

theorem dynamicAny_from_iterator_eq {N : Type} (r : Nat) (cdim : Dim) (s : List N) :
    DynamicAny.allocate_from_iterator r cdim s =
      if s.length = r * cdim.value then
        ⟨s.length, some (Buffer.MatrixVec (Dim.Dynamic r) cdim (s.map some))⟩
      else ⟨s.length, none⟩ := rfl

theorem anyDynamic_from_iterator_eq {N : Type} (r c : Nat) (s : List N) :
    AnyDynamic.allocate_from_iterator r c s =
      if s.length = r * c then
        ⟨s.length, some (Buffer.MatrixVec (Dim.Static r) (Dim.Dynamic c) (s.map some))⟩
      else ⟨s.length, none⟩ := rfl

/-! Claim theorems. -/

/-- C1: for every dimension pair over which a policy is defined, the buffer
returned by `allocate_uninitialized`, and the buffer returned by
`allocate_from_iterator` when it returns one, have exactly
`r.count() * c.count()` element slots, in all three policies. -/
theorem C1_slot_count (N : Type) (r c : Nat) (cdim : Dim) (s : List N) :
    (StaticStatic.allocate_uninit r c : Buffer N).slotCount = r * c ∧
    (∀ b : Buffer N, (StaticStatic.allocate_from_iterator r c s).buffer = some b →
      b.slotCount = r * c) ∧
    (DynamicAny.allocate_uninit r cdim : Buffer N).slotCount = r * cdim.value ∧
    (∀ b : Buffer N, (DynamicAny.allocate_from_iterator r cdim s).buffer = some b →
      b.slotCount = r * cdim.value) ∧
    (AnyDynamic.allocate_uninit r c : Buffer N).slotCount = r * c ∧
    (∀ b : Buffer N, (AnyDynamic.allocate_from_iterator r c s).buffer = some b →
      b.slotCount = r * c) := by
  refine ⟨?_, ?_, ?_, ?_, ?_, ?_⟩
  · simp [StaticStatic.allocate_uninit, Buffer.slotCount, Buffer.slots]
  · intro b hb
    rw [staticStatic_from_iterator_eq] at hb
    split at hb
    · next h =>
      simp at hb
      subst hb
      simp [Buffer.slotCount, Buffer.slots]
      omega
    · simp at hb
  · simp [DynamicAny.allocate_uninit, Buffer.slotCount, Buffer.slots]
  · intro b hb
    rw [dynamicAny_from_iterator_eq] at hb
    split at hb
    · next h =>
      simp at hb
      subst hb
      simp [Buffer.slotCount, Buffer.slots, h]
    · simp at hb
  · simp [AnyDynamic.allocate_uninit, Buffer.slotCount, Buffer.slots]
  · intro b hb
    rw [anyDynamic_from_iterator_eq] at hb
    split at hb
    · next h =>
      simp at hb
      subst hb
      simp [Buffer.slotCount, Buffer.slots, h]
    · simp at hb

/-- Witness for C1 at dimensions (2, 3) and input [1, 2, 3, 4, 5, 6]. -/
theorem C1_slot_count_witness :
    (Buffer.MatrixArray ((([1, 2, 3, 4, 5, 6] : List Nat).take (2 * 3)).map some)).slotCount
      = 2 * 3 ∧
    (Buffer.MatrixVec (Dim.Dynamic 2) (Dim.Static 3)
      (([1, 2, 3, 4, 5, 6] : List Nat).map some)).slotCount = 2 * (Dim.Static 3).value ∧
    (Buffer.MatrixVec (Dim.Static 2) (Dim.Dynamic 3)
      (([1, 2, 3, 4, 5, 6] : List Nat).map some)).slotCount = 2 * 3 :=
  ⟨(C1_slot_count Nat 2 3 (Dim.Static 3) [1, 2, 3, 4, 5, 6]).2.1 _ (by decide),
   (C1_slot_count Nat 2 3 (Dim.Static 3) [1, 2, 3, 4, 5, 6]).2.2.2.1 _ (by decide),
   (C1_slot_count Nat 2 3 (Dim.Static 3) [1, 2, 3, 4, 5, 6]).2.2.2.2.2 _ (by decide)⟩

/-- C2 counterexample: with dimensions (Static 1, Static 1) and input [1, 2]
(longer than 1 * 1), the Static x Static `allocate_from_iterator` does not
fail at the count-mismatch check: it returns a buffer, ignoring the excess.
Moreover the Dynamic x Any policy consumes both input elements — not exactly
1 * 1 of them — before detecting the mismatch. -/
theorem C2_oversupply_counterexample :
    1 * 1 < ([1, 2] : List Nat).length ∧
    ((StaticStatic.allocate_from_iterator 1 1 ([1, 2] : List Nat)).buffer).isSome = true ∧
    (DynamicAny.allocate_from_iterator 1 (Dim.Static 1) ([1, 2] : List Nat)).consumed = 2 := by
  decide

/-- C2 (amended): for every dimension pair and input yielding more than
`r.count() * c.count()` elements, the two dynamic-dimension policies fail
fatally at the count-mismatch check and never return a buffer, but only
after consuming the entire input into the heap sequence; the Static x Static
policy instead ignores the excess: it writes exactly `r * c` elements
(consuming only `r * c` from the input, with no write outside the `r * c`
slots) and returns a buffer. -/
theorem C2_oversupply (N : Type) (r c : Nat) (cdim : Dim) (s : List N)
    (hc : cdim.value = c) (h : r * c < s.length) :
    (DynamicAny.allocate_from_iterator r cdim s).buffer = none ∧
    (DynamicAny.allocate_from_iterator r cdim s).consumed = s.length ∧
    (AnyDynamic.allocate_from_iterator r c s).buffer = none ∧
    (AnyDynamic.allocate_from_iterator r c s).consumed = s.length ∧
    (StaticStatic.allocate_from_iterator r c s).consumed = r * c ∧
    ((StaticStatic.allocate_from_iterator r c s).buffer).isSome = true := by
  subst hc
  have hne : ¬ (s.length = r * cdim.value) := by omega
  have hle : r * cdim.value ≤ s.length := by omega
  rw [dynamicAny_from_iterator_eq, anyDynamic_from_iterator_eq, staticStatic_from_iterator_eq,
    if_neg hne, if_neg hne, if_pos hle]
  simp

/-- Witness for the amended C2 at dimensions (1, 1) and input [1, 2]. -/
theorem C2_oversupply_witness :
    (DynamicAny.allocate_from_iterator 1 (Dim.Dynamic 1) ([1, 2] : List Nat)).buffer = none ∧
    (DynamicAny.allocate_from_iterator 1 (Dim.Dynamic 1) ([1, 2] : List Nat)).consumed
      = ([1, 2] : List Nat).length ∧
    (AnyDynamic.allocate_from_iterator 1 1 ([1, 2] : List Nat)).buffer = none ∧
    (AnyDynamic.allocate_from_iterator 1 1 ([1, 2] : List Nat)).consumed
      = ([1, 2] : List Nat).length ∧
    (StaticStatic.allocate_from_iterator 1 1 ([1, 2] : List Nat)).consumed = 1 * 1 ∧
    ((StaticStatic.allocate_from_iterator 1 1 ([1, 2] : List Nat)).buffer).isSome = true :=
  C2_oversupply Nat 1 1 (Dim.Dynamic 1) [1, 2] (by decide) (by decide)

/-- C3: for every dimension pair and every input yielding strictly fewer than
`r.count() * c.count()` elements, `allocate_from_iterator` fails fatally at
the count-mismatch assertion (returns no buffer) in all three policies. -/
theorem C3_undersupply (N : Type) (r c : Nat) (cdim : Dim) (s : List N)
    (hc : cdim.value = c) (h : s.length < r * c) :
    (StaticStatic.allocate_from_iterator r c s).buffer = none ∧
    (DynamicAny.allocate_from_iterator r cdim s).buffer = none ∧
    (AnyDynamic.allocate_from_iterator r c s).buffer = none := by
  subst hc
  have h1 : ¬ (r * cdim.value ≤ s.length) := by omega
  have h2 : ¬ (s.length = r * cdim.value) := by omega
  rw [staticStatic_from_iterator_eq, dynamicAny_from_iterator_eq, anyDynamic_from_iterator_eq,
    if_neg h1, if_neg h2, if_neg h2]
  exact ⟨rfl, rfl, rfl⟩

/-- Witness for C3 at dimensions (1, 2) and the one-element input [9]. -/
theorem C3_undersupply_witness :
    (StaticStatic.allocate_from_iterator 1 2 ([9] : List Nat)).buffer = none ∧
    (DynamicAny.allocate_from_iterator 1 (Dim.Dynamic 2) ([9] : List Nat)).buffer = none ∧
    (AnyDynamic.allocate_from_iterator 1 2 ([9] : List Nat)).buffer = none :=
  C3_undersupply Nat 1 2 (Dim.Dynamic 2) [9] (by decide) (by decide)

/-- C4: for every dimension pair and an input sequence of exactly
`r.count() * c.count()` values, `allocate_from_iterator` returns a buffer
whose slots, read back in the fixed storage (traversal) order, equal the
input sequence exactly, in all three policies. -/
theorem C4_round_trip (N : Type) (r c : Nat) (cdim : Dim) (s : List N)
    (hc : cdim.value = c) (h : s.length = r * c) :
    (∃ b : Buffer N, (StaticStatic.allocate_from_iterator r c s).buffer = some b ∧
      b.slots = s.map some) ∧
    (∃ b : Buffer N, (DynamicAny.allocate_from_iterator r cdim s).buffer = some b ∧
      b.slots = s.map some) ∧
    (∃ b : Buffer N, (AnyDynamic.allocate_from_iterator r c s).buffer = some b ∧
      b.slots = s.map some) := by
  subst hc
  have hle : r * cdim.value ≤ s.length := by omega
  rw [staticStatic_from_iterator_eq, dynamicAny_from_iterator_eq, anyDynamic_from_iterator_eq,
    if_pos hle, if_pos h, if_pos h]
  refine ⟨⟨_, rfl, ?_⟩, ⟨_, rfl, rfl⟩, ⟨_, rfl, rfl⟩⟩
  simp [Buffer.slots, ← h]

/-- Witness for C4: the concrete scenario of the spec, dimensions (2, 3) and
input [1, 2, 3, 4, 5, 6]. -/
theorem C4_round_trip_witness :
    (∃ b : Buffer Nat,
      (StaticStatic.allocate_from_iterator 2 3 ([1, 2, 3, 4, 5, 6] : List Nat)).buffer = some b ∧
      b.slots = ([1, 2, 3, 4, 5, 6] : List Nat).map some) ∧
    (∃ b : Buffer Nat,
      (DynamicAny.allocate_from_iterator 2 (Dim.Static 3)
        ([1, 2, 3, 4, 5, 6] : List Nat)).buffer = some b ∧
      b.slots = ([1, 2, 3, 4, 5, 6] : List Nat).map some) ∧
    (∃ b : Buffer Nat,
      (AnyDynamic.allocate_from_iterator 2 3 ([1, 2, 3, 4, 5, 6] : List Nat)).buffer = some b ∧
      b.slots = ([1, 2, 3, 4, 5, 6] : List Nat).map some) :=
  C4_round_trip Nat 2 3 (Dim.Static 3) [1, 2, 3, 4, 5, 6] (by decide) (by decide)

/-- C5: for every scalar type and all runtime values, the Static x Static
policy yields the inline `MatrixArray` buffer, and the two policies with a
Dynamic dimension yield the heap-backed `MatrixVec` buffer carrying stored
dimension descriptors equal to the requested pair; the variant is fixed per
policy, independent of any runtime value (no runtime branch selects it). -/
theorem C5_selection (N : Type) (r c : Nat) (cdim : Dim) (s : List N) :
    (StaticStatic.allocate_uninit r c : Buffer N).isInline = true ∧
    (∀ b : Buffer N, (StaticStatic.allocate_from_iterator r c s).buffer = some b →
      b.isInline = true) ∧
    (DynamicAny.allocate_uninit r cdim : Buffer N).storedDims = some (Dim.Dynamic r, cdim) ∧
    (∀ b : Buffer N, (DynamicAny.allocate_from_iterator r cdim s).buffer = some b →
      b.isInline = false ∧ b.storedDims = some (Dim.Dynamic r, cdim)) ∧
    (AnyDynamic.allocate_uninit r c : Buffer N).storedDims
      = some (Dim.Static r, Dim.Dynamic c) ∧
    (∀ b : Buffer N, (AnyDynamic.allocate_from_iterator r c s).buffer = some b →
      b.isInline = false ∧ b.storedDims = some (Dim.Static r, Dim.Dynamic c)) := by
  refine ⟨rfl, ?_, rfl, ?_, rfl, ?_⟩
  · intro b hb
    rw [staticStatic_from_iterator_eq] at hb
    split at hb
    · simp at hb
      subst hb
      rfl
    · simp at hb
  · intro b hb
    rw [dynamicAny_from_iterator_eq] at hb
    split at hb
    · simp at hb
      subst hb
      exact ⟨rfl, rfl⟩
    · simp at hb
  · intro b hb
    rw [anyDynamic_from_iterator_eq] at hb
    split at hb
    · simp at hb
      subst hb
      exact ⟨rfl, rfl⟩
    · simp at hb

/-- Witness for C5 at dimensions (2, 3) and input [1, 2, 3, 4, 5, 6]. -/
theorem C5_selection_witness :
    (Buffer.MatrixArray ((([1, 2, 3, 4, 5, 6] : List Nat).take (2 * 3)).map some)).isInline
      = true ∧
    ((Buffer.MatrixVec (Dim.Dynamic 2) (Dim.Static 3)
        (([1, 2, 3, 4, 5, 6] : List Nat).map some)).isInline = false ∧
      (Buffer.MatrixVec (Dim.Dynamic 2) (Dim.Static 3)
        (([1, 2, 3, 4, 5, 6] : List Nat).map some)).storedDims
        = some (Dim.Dynamic 2, Dim.Static 3)) ∧
    ((Buffer.MatrixVec (Dim.Static 2) (Dim.Dynamic 3)
        (([1, 2, 3, 4, 5, 6] : List Nat).map some)).isInline = false ∧
      (Buffer.MatrixVec (Dim.Static 2) (Dim.Dynamic 3)
        (([1, 2, 3, 4, 5, 6] : List Nat).map some)).storedDims
        = some (Dim.Static 2, Dim.Dynamic 3)) :=
  ⟨(C5_selection Nat 2 3 (Dim.Static 3) [1, 2, 3, 4, 5, 6]).2.1 _ (by decide),
   (C5_selection Nat 2 3 (Dim.Static 3) [1, 2, 3, 4, 5, 6]).2.2.2.1 _ (by decide),
   (C5_selection Nat 2 3 (Dim.Static 3) [1, 2, 3, 4, 5, 6]).2.2.2.2.2 _ (by decide)⟩

/-- C6: for every dimension pair with a zero element count on either axis,
both allocation operations succeed in every policy: `allocate_uninitialized`
yields a buffer with zero slots, and `allocate_from_iterator` applied to the
empty input returns a zero-slot buffer without triggering the
length-mismatch failure. -/
theorem C6_zero_size (N : Type) (r c : Nat) (cdim : Dim)
    (hc : cdim.value = c) (h : r = 0 ∨ c = 0) :
    (StaticStatic.allocate_uninit r c : Buffer N).slotCount = 0 ∧
    (∃ b : Buffer N,
      (StaticStatic.allocate_from_iterator r c ([] : List N)).buffer = some b ∧
      b.slotCount = 0) ∧
    (DynamicAny.allocate_uninit r cdim : Buffer N).slotCount = 0 ∧
    (∃ b : Buffer N,
      (DynamicAny.allocate_from_iterator r cdim ([] : List N)).buffer = some b ∧
      b.slotCount = 0) ∧
    (AnyDynamic.allocate_uninit r c : Buffer N).slotCount = 0 ∧
    (∃ b : Buffer N,
      (AnyDynamic.allocate_from_iterator r c ([] : List N)).buffer = some b ∧
      b.slotCount = 0) := by
  subst hc
  have hz : r * cdim.value = 0 := by rcases h with h | h <;> simp [h]
  have hle : r * cdim.value ≤ ([] : List N).length := by simp [hz]
  have heq : ([] : List N).length = r * cdim.value := by simp [hz]
  rw [staticStatic_from_iterator_eq, dynamicAny_from_iterator_eq, anyDynamic_from_iterator_eq,
    if_pos hle, if_pos heq, if_pos heq]
  refine ⟨?_, ⟨_, rfl, ?_⟩, ?_, ⟨_, rfl, ?_⟩, ?_, ⟨_, rfl, ?_⟩⟩
  all_goals
    simp [StaticStatic.allocate_uninit, DynamicAny.allocate_uninit,
      AnyDynamic.allocate_uninit, Buffer.slotCount, Buffer.slots, hz]

/-- Witness for C6 at dimensions (0, 5). -/
theorem C6_zero_size_witness :
    (StaticStatic.allocate_uninit 0 5 : Buffer Nat).slotCount = 0 ∧
    (∃ b : Buffer Nat,
      (StaticStatic.allocate_from_iterator 0 5 ([] : List Nat)).buffer = some b ∧
      b.slotCount = 0) ∧
    (DynamicAny.allocate_uninit 0 (Dim.Static 5) : Buffer Nat).slotCount = 0 ∧
    (∃ b : Buffer Nat,
      (DynamicAny.allocate_from_iterator 0 (Dim.Static 5) ([] : List Nat)).buffer = some b ∧
      b.slotCount = 0) ∧
    (AnyDynamic.allocate_uninit 0 5 : Buffer Nat).slotCount = 0 ∧
    (∃ b : Buffer Nat,
      (AnyDynamic.allocate_from_iterator 0 5 ([] : List Nat)).buffer = some b ∧
      b.slotCount = 0) :=
  C6_zero_size Nat 0 5 (Dim.Static 5) (by decide) (Or.inl rfl)

/-- C7: the two dynamic-dimension policies collect the entire input sequence
before performing the length check: the number of consumed elements always
equals the full input length — also on the runs where the fatal assertion
then fires — and the fatal failure occurs exactly when the collected length
differs from `r.count() * c.count()`. -/
theorem C7_collect_then_check (N : Type) (r : Nat) (cdim : Dim) (c : Nat) (s : List N) :
    (DynamicAny.allocate_from_iterator r cdim s).consumed = s.length ∧
    ((DynamicAny.allocate_from_iterator r cdim s).buffer = none ↔
      s.length ≠ r * cdim.value) ∧
    (AnyDynamic.allocate_from_iterator r c s).consumed = s.length ∧
    ((AnyDynamic.allocate_from_iterator r c s).buffer = none ↔ s.length ≠ r * c) := by
  rw [dynamicAny_from_iterator_eq, anyDynamic_from_iterator_eq]
  refine ⟨?_, ?_, ?_, ?_⟩
  · split <;> rfl
  · split
    · next h => simp [h]
    · next h => simp [h]
  · split <;> rfl
  · split
    · next h => simp [h]
    · next h => simp [h]

/-- C8: the Dynamic x Any and Any x Dynamic policies implement the same
algorithm with the same failure policy: on any shape with equal row and
column counts and any input sequence, they consume the same number of
elements, fail fatally together or return together, and on success produce
buffers with the same slot count, the same stored dimension counts, and
identical slot contents; only the buffer variant identity differs. -/
theorem C8_policy_equivalence (N : Type) (r : Nat) (cdim : Dim) (s : List N) :
    (DynamicAny.allocate_from_iterator r cdim s).consumed =
      (AnyDynamic.allocate_from_iterator r cdim.value s).consumed ∧
    ((DynamicAny.allocate_from_iterator r cdim s).buffer).isSome =
      ((AnyDynamic.allocate_from_iterator r cdim.value s).buffer).isSome ∧
    ((DynamicAny.allocate_from_iterator r cdim s).buffer).map Buffer.slotCount =
      ((AnyDynamic.allocate_from_iterator r cdim.value s).buffer).map Buffer.slotCount ∧
    ((DynamicAny.allocate_from_iterator r cdim s).buffer).map Buffer.storedCounts =
      ((AnyDynamic.allocate_from_iterator r cdim.value s).buffer).map Buffer.storedCounts ∧
    ((DynamicAny.allocate_from_iterator r cdim s).buffer).map Buffer.slots =
      ((AnyDynamic.allocate_from_iterator r cdim.value s).buffer).map Buffer.slots := by
  rw [dynamicAny_from_iterator_eq, anyDynamic_from_iterator_eq]
  by_cases h : s.length = r * cdim.value <;>
    simp [h, Buffer.slotCount, Buffer.slots, Buffer.storedCounts,
      Dim.value_static_eq, Dim.value_dynamic_eq]

/-- C9: in the Static x Static policy, `allocate_from_iterator` fails fatally
if and only if the input yields strictly fewer than `r.count() * c.count()`
elements; when the input yields that many or more, it succeeds, consumes
exactly `r.count() * c.count()` elements, and returns a buffer holding the
first `r.count() * c.count()` input elements in order. -/
theorem C9_static_threshold (N : Type) (r c : Nat) (s : List N) :
    ((StaticStatic.allocate_from_iterator r c s).buffer = none ↔ s.length < r * c) ∧
    (r * c ≤ s.length →
      StaticStatic.allocate_from_iterator r c s =
        ⟨r * c, some (Buffer.MatrixArray ((s.take (r * c)).map some))⟩) := by
  rw [staticStatic_from_iterator_eq]
  rcases le_or_lt (r * c) s.length with h | h
  · rw [if_pos h]
    refine ⟨?_, fun _ => rfl⟩
    simp
    omega
  · rw [if_neg (by omega)]
    refine ⟨?_, fun hle => by omega⟩
    simpa using h

/-- Witness for C9 at dimensions (1, 2) and input [5, 7, 9]. -/
theorem C9_static_threshold_witness :
    StaticStatic.allocate_from_iterator 1 2 ([5, 7, 9] : List Nat) =
      ⟨1 * 2, some (Buffer.MatrixArray ((([5, 7, 9] : List Nat).take (1 * 2)).map some))⟩ :=
  (C9_static_threshold Nat 1 2 [5, 7, 9]).2 (by decide)

/-- C10: `allocate_from_iterator` is deterministic in every policy: for equal
inputs, two invocations give equal outcomes — the same failure or success,
the same number of consumed elements, and identical buffers (slots and
stored dimensions included). -/
theorem C10_deterministic (N : Type) (r c : Nat) (cdim : Dim) (s t : List N)
    (h : s = t) :
    StaticStatic.allocate_from_iterator r c s = StaticStatic.allocate_from_iterator r c t ∧
    DynamicAny.allocate_from_iterator r cdim s = DynamicAny.allocate_from_iterator r cdim t ∧
    AnyDynamic.allocate_from_iterator r c s = AnyDynamic.allocate_from_iterator r c t := by
  subst h
  exact ⟨rfl, rfl, rfl⟩

/-- Witness for C10 at dimensions (2, 3) and input [1, 2, 3, 4, 5, 6]. -/
theorem C10_deterministic_witness :
    StaticStatic.allocate_from_iterator 2 3 ([1, 2, 3, 4, 5, 6] : List Nat) =
      StaticStatic.allocate_from_iterator 2 3 ([1, 2, 3, 4, 5, 6] : List Nat) ∧
    DynamicAny.allocate_from_iterator 2 (Dim.Static 3) ([1, 2, 3, 4, 5, 6] : List Nat) =
      DynamicAny.allocate_from_iterator 2 (Dim.Static 3) ([1, 2, 3, 4, 5, 6] : List Nat) ∧
    AnyDynamic.allocate_from_iterator 2 3 ([1, 2, 3, 4, 5, 6] : List Nat) =
      AnyDynamic.allocate_from_iterator 2 3 ([1, 2, 3, 4, 5, 6] : List Nat) :=
  C10_deterministic Nat 2 3 (Dim.Static 3) [1, 2, 3, 4, 5, 6] [1, 2, 3, 4, 5, 6] rfl
